import Mathlib

set_option maxHeartbeats 1000000

namespace ServerlessItinerary

/-!
Shallow embedding of the Cloudflare Worker source (src/unnamed/part_000):
the asynchronous itinerary-generation pipeline.  The embedding covers the
request gateway (`fetch` handler, POST /api branch), the `retryWithBackoff`
wrapper, the Gemini response post-processing (markdown fence stripping and
JSON parsing), the Zod `itinerarySchema` validation, and the Firestore job
writes issued by `generateItineraryAsync`.

Platform capabilities (the network `fetch`, the host `JSON.parse`, the
Firestore write acceptance, the clock) are modelled as an explicit behaviour
record threaded through the pipeline; everything the repository's own code
computes is embedded as executable Lean functions.
-/

/-- Decoded JSON values, the result of the platform `JSON.parse` /
`req.json()`.  Numbers are modelled as rationals (JS numbers are binary
floats; every JSON literal the pipeline manipulates denotes a rational, and
no arithmetic is performed on them by the source).  Object field lists are
assumed duplicate-free, as `JSON.parse` produces objects with unique keys. -/
inductive JSON where
  | null
  | bool (b : Bool)
  | num (q : Rat)
  | str (s : String)
  | arr (elems : List JSON)
  | obj (fields : List (String × JSON))

/-- Field lookup in a decoded object, `fields[key]` in JS. -/
def lookupField : List (String × JSON) → String → Option JSON
  | [], _ => none
  | (k, v) :: rest, key => if k = key then some v else lookupField rest key

/-- JS property access `v.key`: objects yield the field (or `undefined`,
here `none`, when absent); every other value yields `undefined` (primitives
and arrays have no such own property). -/
def getProp : JSON → String → Option JSON
  | .obj fs, key => lookupField fs key
  | _, _ => none

/-- JS computed access `v[i]` for a numeric index: arrays index their
elements; objects fall back to the string key (JS coerces the index);
other values yield `undefined`.  (JS string indexing, which yields a
one-character string, is modelled as `undefined`; the pipeline then fails
on the next access either way.) -/
def jsIndex : JSON → Nat → Option JSON
  | .arr xs, i => xs[i]?
  | .obj fs, i => lookupField fs (toString i)
  | _, _ => none

/-- JS truthiness of a decoded value (`!v` is the negation of this). -/
def truthy : JSON → Bool
  | .null => false
  | .bool b => b
  | .num q => !(q == 0)
  | .str s => !(s == "")
  | .arr _ => true
  | .obj _ => true

/-- Truthiness where `none` stands for `undefined` (a missing field). -/
def undefTruthy : Option JSON → Bool
  | some v => truthy v
  | none => false

/-- `typeof v === "string"` on a possibly-missing value. -/
def isStringVal : Option JSON → Bool
  | some (.str _) => true
  | _ => false

/-- `typeof v === "number"` on a possibly-missing value.  The gateway
never performs this check on `durationDays`; the definition only serves to
state what a value being "a number" means. -/
def isNumberVal : Option JSON → Bool
  | some (.num _) => true
  | _ => false

/-- A JS number as produced by `ToNumber`: finite, an infinity, or `NaN`. -/
inductive JsNum where
  | nan
  | posInf
  | negInf
  | fin (q : Rat)
deriving DecidableEq

/-- Value of one digit character in the given base, if valid. -/
def digitVal? (base : Nat) (c : Char) : Option Nat :=
  let v : Nat :=
    if '0' ≤ c ∧ c ≤ '9' then c.toNat - '0'.toNat
    else if 'a' ≤ c ∧ c ≤ 'f' then c.toNat - 'a'.toNat + 10
    else if 'A' ≤ c ∧ c ≤ 'F' then c.toNat - 'A'.toNat + 10
    else base
  if v < base then some v else none

/-- Value of a non-empty digit string in the given base, if all valid. -/
def digitsVal (base : Nat) : List Char → Option Nat
  | [] => none
  | cs => cs.foldl (fun acc c => acc.bind fun n => (digitVal? base c).map fun d => n * base + d) (some 0)

/-- Splits a character list at the first occurrence of `sep`, if any. -/
def splitAtChar (sep : Char) : List Char → List Char × Option (List Char)
  | [] => ([], none)
  | c :: rest =>
    if c = sep then ([], some rest)
    else
      let p := splitAtChar sep rest
      (c :: p.1, p.2)

/-- `m * 10 ^ e` for a signed exponent. -/
def ratTimesPow10 (m : Rat) (e : Int) : Rat :=
  if 0 ≤ e then m * (10 : Rat) ^ e.toNat else m / (10 : Rat) ^ (-e).toNat

/-- Whitespace test used by the JS `String.prototype.trim` model (Lean's
`Char.isWhitespace`; JS additionally trims some exotic Unicode spaces,
which never occur in the strings this pipeline handles). -/
def isWs (c : Char) : Bool := c.isWhitespace

/-- JS `String.prototype.trim` on a character list: drop whitespace from
both ends. -/
def trimL (l : List Char) : List Char :=
  (l.dropWhile isWs).rdropWhile isWs

/-- Decimal mantissa `digits [. digits]` with at least one digit. -/
def decMantissa? (cs : List Char) : Option Rat :=
  let p := splitAtChar '.' cs
  match p.2 with
  | none => (digitsVal 10 cs).map fun n => (n : Rat)
  | some frac =>
    let intPart : Option Nat := if p.1 = [] then some 0 else digitsVal 10 p.1
    let fracPart : Option Rat :=
      if frac = [] then
        if p.1 = [] then none else some 0
      else (digitsVal 10 frac).map fun n => (n : Rat) / (10 : Rat) ^ frac.length
    intPart.bind fun i => fracPart.map fun f => (i : Rat) + f

/-- Optional decimal exponent `[+-] digits`. -/
def decExponent? (cs : List Char) : Option Int :=
  match cs with
  | '+' :: ds => (digitsVal 10 ds).map fun n => (n : Int)
  | '-' :: ds => (digitsVal 10 ds).map fun n => -(n : Int)
  | ds => (digitsVal 10 ds).map fun n => (n : Int)

/-- Decimal literal with optional fraction and exponent, `1.5e-3` etc. -/
def decLiteral? (cs : List Char) : Option Rat :=
  let p := splitAtChar 'e' cs
  let p' := if p.2 = none then splitAtChar 'E' cs else p
  match p'.2 with
  | none => decMantissa? cs
  | some ex => (decMantissa? p'.1).bind fun m => (decExponent? ex).map fun e => ratTimesPow10 m e

/-- Unsigned JS numeric literal: a `0x`/`0o`/`0b` radix literal or a
decimal literal. -/
def unsignedNumericLiteral? (cs : List Char) : Option Rat :=
  match cs with
  | '0' :: 'x' :: ds => (digitsVal 16 ds).map fun n => (n : Rat)
  | '0' :: 'X' :: ds => (digitsVal 16 ds).map fun n => (n : Rat)
  | '0' :: 'o' :: ds => (digitsVal 8 ds).map fun n => (n : Rat)
  | '0' :: 'O' :: ds => (digitsVal 8 ds).map fun n => (n : Rat)
  | '0' :: 'b' :: ds => (digitsVal 2 ds).map fun n => (n : Rat)
  | '0' :: 'B' :: ds => (digitsVal 2 ds).map fun n => (n : Rat)
  | _ => decLiteral? cs

/-- JS `ToNumber` on a string: trim, empty means `0`, infinities, signed
numeric literal (a sign is only legal on decimal literals), else `NaN`. -/
def strToNumber (cs : List Char) : JsNum :=
  let t := trimL cs
  if t = [] then .fin 0
  else if t = "Infinity".toList ∨ t = "+Infinity".toList then .posInf
  else if t = "-Infinity".toList then .negInf
  else
    match t with
    | '+' :: rest =>
      match decLiteral? rest with
      | some q => .fin q
      | none => .nan
    | '-' :: rest =>
      match decLiteral? rest with
      | some q => .fin (-q)
      | none => .nan
    | _ =>
      match unsignedNumericLiteral? t with
      | some q => .fin q
      | none => .nan

/-- JS `ToNumber` on a decoded value (the coercion performed by
`durationDays <= 0`): `null` is `0`, booleans are `0`/`1`, strings go
through the string grammar, plain objects stringify to `[object Object]`
and give `NaN`.  Arrays stringify via `join(",")`: the empty array gives
`""` (so `0`), a one-element array coerces like its element (except that
`String(true)` is `"true"`, `NaN`; nested one-element arrays, whose JS
coercion recurses through `join`, are conservatively modelled as `NaN`),
and a multi-element array always stringifies with a comma, `NaN`. -/
def toNumberJ : JSON → JsNum
  | .null => .fin 0
  | .bool b => .fin (if b then 1 else 0)
  | .num q => .fin q
  | .str s => strToNumber s.toList
  | .arr [] => .fin 0
  | .arr [.null] => .fin 0
  | .arr [.num q] => .fin q
  | .arr [.str s] => strToNumber s.toList
  | .arr _ => .nan
  | .obj _ => .nan

/-- The test `v <= 0` of the gateway's validation, on a possibly-missing
value: `undefined` coerces to `NaN`, and any comparison with `NaN` is
false.  (The source only evaluates this after `!durationDays` ruled out
`undefined`, but the short-circuit makes the total function harmless.) -/
def jsLE0v (v : Option JSON) : Bool :=
  match v with
  | none => false
  | some j =>
    match toNumberJ j with
    | .nan => false
    | .posInf => false
    | .negInf => true
    | .fin q => decide (q ≤ 0)

/-! ### Raw-text post-processing (`generateItineraryAsync`, fence stripping)

The source trims the model text, and if it starts with three backticks and
splits (on `"\n"`) into at least three lines, removes the first and last
line and trims the rejoined middle.  Strings are modelled as `List Char`. -/

/-- The backtick character. -/
def bt : Char := Char.ofNat 96

/-- The three-backtick fence marker the source tests with `startsWith`. -/
def fenceMark : List Char := [bt, bt, bt]

/-- The newline character the source splits on. -/
def nlc : Char := Char.ofNat 10

/-- `split("\n")` on a character list (JS `String.prototype.split` with a
single-character separator: the list of segments between newlines; never
empty, and empty segments are kept). -/
def splitNl : List Char → List (List Char)
  | [] => [[]]
  | c :: rest =>
    if c = nlc then [] :: splitNl rest
    else
      match splitNl rest with
      | [] => [[c]]
      | h :: t => (c :: h) :: t

/-- `join("\n")`: interleave the segments with newlines. -/
def joinNl : List (List Char) → List Char
  | [] => []
  | [l] => l
  | l :: ls => l ++ nlc :: joinNl ls

/-- Post-processing of the raw Gemini text before `JSON.parse`
(`generateItineraryAsync` lines 700–712): trim; if the trimmed text starts
with three backticks and has at least 3 lines, drop the first and last line
(`shift`/`pop`) and trim the `join("\n")` of the rest; otherwise leave the
trimmed text as is. -/
def cleanRawText (s : List Char) : List Char :=
  let t := trimL s
  if fenceMark.isPrefixOf t then
    let lines := splitNl t
    if 3 ≤ lines.length then
      trimL (joinNl (lines.tail.dropLast))
    else t
  else t

/-! ### The Zod `itinerarySchema` (source lines 472–486)

`z.object({ itinerary: z.array(z.object({ day: z.number().int(),
theme: z.string(), activities: z.array(z.object({ time: z.string(),
description: z.string(), location: z.string() })) })) })`.

Zod walks the value, collects one issue per field-level violation (each
carrying the path to the offending position), strips unknown object keys,
and on success returns the typed data. -/

/-- One step of a zod issue path: an object key or an array index. -/
inductive PathElem where
  | key (k : String)
  | idx (i : Nat)
deriving DecidableEq

/-- A single validation violation: the path to the offending position and
a message (zod's `invalid_type` messages; their exact wording is not
load-bearing). -/
structure ZodIssue where
  path : List PathElem
  message : String
deriving DecidableEq

/-- A validated activity (`time`, `description`, `location`, all strings). -/
structure Activity where
  time : String
  description : String
  location : String
deriving DecidableEq

/-- A validated day plan (`day` integer, `theme` string, `activities`). -/
structure DayPlan where
  day : Int
  theme : String
  activities : List Activity
deriving DecidableEq

/-- The validated top-level value: an object with the `itinerary` array. -/
structure ItineraryData where
  itinerary : List DayPlan
deriving DecidableEq

/-- Combines two independently validated parts, concatenating their issue
lists when both fail (zod validates every key and aggregates). -/
def collect2 {α β : Type} :
    Except (List ZodIssue) α → Except (List ZodIssue) β → Except (List ZodIssue) (α × β)
  | .ok a, .ok b => .ok (a, b)
  | .error e, .ok _ => .error e
  | .ok _, .error e => .error e
  | .error e1, .error e2 => .error (e1 ++ e2)

/-- `z.string()` at key `k` of an object: present and a string, or one
issue at `path ++ [k]` (zod reports a missing required key as
`invalid_type, received undefined`, message `Required`). -/
def reqString (p : List PathElem) (k : String) (fs : List (String × JSON)) :
    Except (List ZodIssue) String :=
  match lookupField fs k with
  | some (.str s) => .ok s
  | some _ => .error [⟨p ++ [.key k], "Expected string"⟩]
  | none => .error [⟨p ++ [.key k], "Required"⟩]

/-- `z.number().int()` at key `k`: present, a number, and an integer. -/
def reqInt (p : List PathElem) (k : String) (fs : List (String × JSON)) :
    Except (List ZodIssue) Int :=
  match lookupField fs k with
  | some (.num q) =>
    if q.den = 1 then .ok q.num
    else .error [⟨p ++ [.key k], "Expected integer"⟩]
  | some _ => .error [⟨p ++ [.key k], "Expected number"⟩]
  | none => .error [⟨p ++ [.key k], "Required"⟩]

/-- An activity object: unknown keys are stripped, the three string fields
are validated independently and their issues aggregated. -/
def parseActivity (p : List PathElem) (j : JSON) : Except (List ZodIssue) Activity :=
  match j with
  | .obj fs =>
    match collect2 (reqString p "time" fs)
        (collect2 (reqString p "description" fs) (reqString p "location" fs)) with
    | .ok (t, d, l) => .ok ⟨t, d, l⟩
    | .error es => .error es
  | _ => .error [⟨p, "Expected object"⟩]

/-- `z.array(elem)`: validates every element at `path ++ [index]`,
aggregating issues across elements. -/
def parseListAux {α : Type} (f : List PathElem → JSON → Except (List ZodIssue) α)
    (p : List PathElem) : Nat → List JSON → Except (List ZodIssue) (List α)
  | _, [] => .ok []
  | i, x :: rest =>
    match collect2 (f (p ++ [.idx i]) x) (parseListAux f p (i + 1) rest) with
    | .ok (a, as) => .ok (a :: as)
    | .error es => .error es

/-- The `activities` key of a day plan: present, an array, and every
element a valid activity. -/
def reqActivities (p : List PathElem) (fs : List (String × JSON)) :
    Except (List ZodIssue) (List Activity) :=
  match lookupField fs "activities" with
  | some (.arr xs) => parseListAux parseActivity (p ++ [.key "activities"]) 0 xs
  | some _ => .error [⟨p ++ [.key "activities"], "Expected array"⟩]
  | none => .error [⟨p ++ [.key "activities"], "Required"⟩]

/-- A day-plan object: `day`, `theme` and `activities` validated
independently (in schema key order), unknown keys stripped. -/
def parseDayPlan (p : List PathElem) (j : JSON) : Except (List ZodIssue) DayPlan :=
  match j with
  | .obj fs =>
    match collect2 (reqInt p "day" fs) (collect2 (reqString p "theme" fs) (reqActivities p fs)) with
    | .ok (d, th, as) => .ok ⟨d, th, as⟩
    | .error es => .error es
  | _ => .error [⟨p, "Expected object"⟩]

/-- `itinerarySchema.safeParse`: the top level must be an object whose
`itinerary` key holds an array of valid day plans. -/
def itinerarySchema.safeParse (j : JSON) : Except (List ZodIssue) ItineraryData :=
  match j with
  | .obj fs =>
    match lookupField fs "itinerary" with
    | some (.arr xs) =>
      match parseListAux parseDayPlan [.key "itinerary"] 0 xs with
      | .ok ds => .ok ⟨ds⟩
      | .error es => .error es
    | some _ => .error [⟨[.key "itinerary"], "Expected array"⟩]
    | none => .error [⟨[.key "itinerary"], "Required"⟩]
  | _ => .error [⟨[], "Expected object"⟩]

/-- Rendering of an issue path (used in the aggregated error message the
orchestrator stores, `Validation error: ...`). -/
def renderPath : List PathElem → String
  | [] => ""
  | .key k :: rest => "." ++ k ++ renderPath rest
  | .idx i :: rest => "[" ++ toString i ++ "]" ++ renderPath rest

/-- The aggregated `validation.error.message`: all violations concatenated
(zod stringifies the issue list; the exact format is not load-bearing). -/
def renderIssues (es : List ZodIssue) : String :=
  String.intercalate "; " (es.map fun i => renderPath i.path ++ ": " ++ i.message)

/-! ### `retryWithBackoff` (source lines 632–640)

`try { return await fn() } catch { if (retries === 0) throw;
await sleep(delay); return retryWithBackoff(fn, retries - 1, delay * 2) }`.

The wrapped thunk is modelled as a function from the attempt number to the
attempt's outcome (a rejection or a settled value); the result carries the
list of backoff delays slept, in order, so timing claims are statable. -/

/-- The retry wrapper: returns the first settled value, or after a
rejection waits `delay` and retries with `retries - 1` and `delay * 2`,
rethrowing the last error once `retries` hits 0.  Defaults in the source:
`retries = 3`, `delay = 500`. -/
def retryWithBackoff {E A : Type} (fn : Nat → Except E A) :
    Nat → Nat → Nat → Except E A × List Nat
  | retries, delay, attempt =>
    match fn attempt with
    | .ok a => (.ok a, [])
    | .error e =>
      match retries with
      | 0 => (.error e, [])
      | r + 1 =>
        let p := retryWithBackoff fn r (delay * 2) (attempt + 1)
        (p.1, delay :: p.2)

/-! ### `generateItineraryAsync` (source lines 646–731) -/

/-- A settled `fetch` response: its `ok` flag, `status`, and the outcome of
`response.json()` (which may itself reject on a non-JSON body). -/
structure FetchResponse where
  ok : Bool
  status : Nat
  body : Except String JSON

/-- The platform-supplied behaviour one run of the background task
observes: the outcome of each `fetch` attempt (indexed by attempt number),
the host `JSON.parse` (abstract: a host builtin, deterministic within the
run), whether Firestore accepts each write issued by this task (indexed by
issue order), and the clock (`new Date().toISOString()`; the two terminal
sites read it at most once each, and no claim depends on the instants
differing, so one value is carried). -/
structure GenBehavior where
  fetchResult : Nat → Except String FetchResponse
  jsonParse : List Char → Except String JSON
  writeOk : Nat → Bool
  now : String

/-- The fetch phase: `retryWithBackoff(() => fetch(apiUrl, ...))` followed
by `if (!response.ok) throw new Error("Gemini failed: " + status)`.  Note
the `ok` check sits outside the retry wrapper in the source: any settled
response, OK or not, ends the retrying. -/
def fetchStage (b : GenBehavior) : Except String FetchResponse :=
  match (retryWithBackoff b.fetchResult 3 500 0).1 with
  | .error e => .error e
  | .ok resp =>
    if resp.ok then .ok resp
    else .error ("Gemini failed: " ++ toString resp.status)

/-- `result.candidates[0].content.parts[0].text` followed by `.trim()`'s
receiver check: each step of the chain must exist, and the final value must
be a string, else the access throws a `TypeError` (caught by the
orchestrator).  The thrown message is summarised. -/
def extractText (result : JSON) : Except String String :=
  match ((((getProp result "candidates").bind fun c => jsIndex c 0).bind
      fun c0 => getProp c0 "content").bind fun ct => getProp ct "parts").bind
      (fun ps => (jsIndex ps 0).bind fun p0 => getProp p0 "text") with
  | some (.str s) => .ok s
  | _ => .error "TypeError: cannot read properties of the Gemini response"

/-- Everything from the fetch to the decoded JS value handed to the
validator: fetch with retry, `ok` check, `response.json()`, text
extraction, trim and fence stripping, `JSON.parse`. -/
def decodedValue (b : GenBehavior) : Except String JSON :=
  match fetchStage b with
  | .error e => .error e
  | .ok resp =>
    match resp.body with
    | .error e => .error e
    | .ok result =>
      match extractText result with
      | .error e => .error e
      | .ok text =>
        match b.jsonParse (cleanRawText text.toList) with
        | .error e => .error ("SyntaxError: " ++ e)
        | .ok generated => .ok generated

/-- The full generation pipeline up to (and including) schema validation;
a validation failure throws `Validation error: <message>`. -/
def pipelineResult (b : GenBehavior) : Except String ItineraryData :=
  match decodedValue b with
  | .error e => .error e
  | .ok generated =>
    match itinerarySchema.safeParse generated with
    | .error issues => .error ("Validation error: " ++ renderIssues issues)
    | .ok d => .ok d

/-! ### Job writes and the job record -/

/-- The job status values. -/
inductive Status where
  | processing
  | completed
  | failed
deriving DecidableEq

/-- One partial write payload handed to `writeToFirestore` (a Firestore
`PATCH`, i.e. an upsert merging exactly the listed fields).  The outer
`Option` is key presence in the payload; the inner `Option` (where there is
one) distinguishes an explicit `null` from a value. -/
structure JobUpdate where
  status : Option Status := none
  destination : Option String := none
  durationDays : Option JSON := none
  createdAt : Option String := none
  completedAt : Option (Option String) := none
  itinerary : Option (Option (List DayPlan)) := none
  error : Option (Option String) := none

/-- A write issued against the job's document: the payload, and whether
the store accepted it (an unaccepted write makes `writeToFirestore`
throw and leaves the document untouched). -/
structure WriteRec where
  data : JobUpdate
  applied : Bool

/-- The terminal `completed` write (source lines 719–723): status,
itinerary and completedAt only — the `error` field is not touched. -/
def completedUpdate (d : ItineraryData) (now : String) : JobUpdate :=
  { status := some .completed
    itinerary := some (some d.itinerary)
    completedAt := some (some now) }

/-- The terminal `failed` write (source lines 725–729): status, error and
completedAt only — the `itinerary` field is not touched. -/
def failedUpdate (msg now : String) : JobUpdate :=
  { status := some .failed
    error := some (some msg)
    completedAt := some (some now) }

/-- The message of the error `writeToFirestore` throws when Firestore
rejects a write (`Firestore error: <status> - <text>`; the status and body
text are abstracted). -/
def storeErrMsg : String := "Firestore error"

/-- `generateItineraryAsync` as a trace of issued writes plus the task's
final outcome (`.error` = the returned promise rejects, i.e. the task ends
with an uncaught exception).  The whole body runs in one `try`: a failure
anywhere in the pipeline — or in the `completed` write itself — lands in
the `catch`, which issues the terminal `failed` write; only a failure of
that write in the `catch` escapes.  (The prompt text and the `jobId`
routing are elided: all writes of this task target the job's document.) -/
def runGeneration (b : GenBehavior) : List WriteRec × Except String Unit :=
  match pipelineResult b with
  | .ok d =>
    if b.writeOk 0 then ([⟨completedUpdate d b.now, true⟩], .ok ())
    else
      ([⟨completedUpdate d b.now, false⟩, ⟨failedUpdate storeErrMsg b.now, b.writeOk 1⟩],
        if b.writeOk 1 then .ok () else .error storeErrMsg)
  | .error msg =>
    ([⟨failedUpdate msg b.now, b.writeOk 0⟩],
      if b.writeOk 0 then .ok () else .error storeErrMsg)

/-! ### The POST /api branch of the Worker `fetch` handler (lines 744–787) -/

/-- The outcome of `await req.json()`: a parse failure (answered with 400
`Invalid JSON`) or a decoded body. -/
inductive ReqBody where
  | malformed
  | parsed (body : JSON)

/-- The environment one request observes: the `nanoid()` job id, the
creation instant, and the store/pipeline behaviour of the dispatched
background task.  `initWriteOk` is whether Firestore accepts the awaited
initial `processing` write. -/
structure Env where
  jobId : String
  createdAt : String
  initWriteOk : Bool
  gen : GenBehavior

/-- The initial `processing` write (source lines 765–774): status,
destination, raw durationDays, createdAt, and explicit `null` for
completedAt, itinerary and error. -/
def initUpdate (dest : String) (dd : JSON) (createdAt : String) : JobUpdate :=
  { status := some .processing
    destination := some dest
    durationDays := some dd
    createdAt := some createdAt
    completedAt := some none
    itinerary := some none
    error := some none }

/-- The handler's observable result: the HTTP status of the response
(`none` when the handler itself throws and no response is produced), the
writes it issued synchronously, the writes of the dispatched background
task (empty when none was dispatched), and whether the handler threw. -/
structure PostResult where
  status : Option Nat
  writes : List WriteRec
  genWrites : List WriteRec
  dispatched : Bool
  outcome : Except String Unit

/-- The POST /api branch.  `const { destination, durationDays } = body`
throws a `TypeError` when the body decoded to `null` (destructuring null);
any other decoded value destructures, missing keys becoming `undefined`.
The validation is the source's
`!destination || typeof destination !== "string" || !durationDays ||
durationDays <= 0`; on failure the handler answers 400 and issues no
write.  Otherwise it awaits the initial write (throwing if the store
rejects it, in which case nothing is dispatched), dispatches
`generateItineraryAsync` via `ctx.waitUntil`, and answers 202. -/
def handlePost (rb : ReqBody) (env : Env) : PostResult :=
  match rb with
  | .malformed => ⟨some 400, [], [], false, .ok ()⟩
  | .parsed .null => ⟨none, [], [], false, .error "TypeError: cannot destructure null"⟩
  | .parsed body =>
    let dest := getProp body "destination"
    let dd := getProp body "durationDays"
    if !undefTruthy dest || !isStringVal dest || !undefTruthy dd || jsLE0v dd then
      ⟨some 400, [], [], false, .ok ()⟩
    else
      let destStr := match dest with | some (.str s) => s | _ => ""
      let w0 : WriteRec := ⟨initUpdate destStr (dd.getD .null) env.createdAt, env.initWriteOk⟩
      if env.initWriteOk then
        ⟨some 202, [w0], (runGeneration env.gen).1, true, .ok ()⟩
      else
        ⟨none, [w0], [], false, .error storeErrMsg⟩

/-- The job document as stored (each field `none` until first written;
`completedAt`, `itinerary` and `error` conflate `null` and never-written,
which the claims do not distinguish). -/
structure JobRecord where
  status : Option Status := none
  destination : Option String := none
  durationDays : Option JSON := none
  createdAt : Option String := none
  completedAt : Option String := none
  itinerary : Option (List DayPlan) := none
  error : Option String := none

/-- Merging one accepted partial write into the document (Firestore
`PATCH` upsert: exactly the fields present in the payload are replaced). -/
def applyUpdate (r : JobRecord) (u : JobUpdate) : JobRecord :=
  { status := match u.status with | some s => some s | none => r.status
    destination := match u.destination with | some d => some d | none => r.destination
    durationDays := match u.durationDays with | some d => some d | none => r.durationDays
    createdAt := match u.createdAt with | some c => some c | none => r.createdAt
    completedAt := match u.completedAt with | some c => c | none => r.completedAt
    itinerary := match u.itinerary with | some i => i | none => r.itinerary
    error := match u.error with | some e => e | none => r.error }

/-- Folding a write trace into the document; writes the store rejected
left the document untouched. -/
def applyWrites (r : JobRecord) : List WriteRec → JobRecord
  | [] => r
  | w :: ws => applyWrites (if w.applied then applyUpdate r w.data else r) ws

/-- The job's final document after one request and its background task. -/
def finalRecord (rb : ReqBody) (env : Env) : JobRecord :=
  let res := handlePost rb env
  applyWrites {} (res.writes ++ res.genWrites)

/-- A terminal payload: one that sets status `completed` or `failed`. -/
def isTerminal (u : JobUpdate) : Bool :=
  u.status == some .completed || u.status == some .failed

/-- Number of terminal writes issued in a trace. -/
def countIssuedTerminal (ws : List WriteRec) : Nat :=
  (ws.filter fun w => isTerminal w.data).length

/-- Number of terminal writes the store accepted in a trace. -/
def countAppliedTerminal (ws : List WriteRec) : Nat :=
  (ws.filter fun w => w.applied && isTerminal w.data).length

/-! ### Concrete behaviours for witnesses and counterexamples -/

/-- A raw Gemini text: plain JSON, no fence. -/
def goodText : String := "\x7b\"itinerary\":[1]\x7d"

/-- A generated value the schema accepts; the day and the activity carry
one unknown key each (`note`, `rating`), which validation strips. -/
def goodGenerated : JSON :=
  .obj [("itinerary", .arr [
    .obj [("day", .num 1), ("theme", .str "Old Town"),
          ("activities", .arr [
            .obj [("time", .str "09:00"), ("description", .str "Walking tour"),
                  ("location", .str "Center"), ("rating", .num 5)]]),
          ("note", .str "extra")]])]

/-- The typed result of validating `goodGenerated`. -/
def goodData : ItineraryData := ⟨[⟨1, "Old Town", [⟨"09:00", "Walking tour", "Center"⟩]⟩]⟩

/-- A deterministic stand-in for the host `JSON.parse`: decodes `goodText`
to `goodGenerated`, rejects anything else. -/
def stubParse (cs : List Char) : Except String JSON :=
  if cs = goodText.toList then .ok goodGenerated else .error "Unexpected token"

/-- A fixed clock reading. -/
def ts : String := "2026-01-01T00:00:00.000Z"

/-- A Gemini response body of the expected shape carrying `goodText`. -/
def goodBody : JSON :=
  .obj [("candidates", .arr [.obj [("content",
    .obj [("parts", .arr [.obj [("text", .str goodText)]])])]])]

/-- A successful (OK) response. -/
def goodResp : FetchResponse := ⟨true, 200, .ok goodBody⟩

/-- A settled but non-OK response (HTTP 500). -/
def respBad : FetchResponse := ⟨false, 500, .ok goodBody⟩

/-- Every fetch succeeds, every write is accepted. -/
def bGood : GenBehavior := ⟨fun _ => .ok goodResp, stubParse, fun _ => true, ts⟩

/-- The first fetch attempt settles with a non-OK response; every later
attempt would return the good response.  All writes accepted. -/
def bC1 : GenBehavior :=
  ⟨fun n => match n with | 0 => .ok respBad | _ => .ok goodResp,
    stubParse, fun _ => true, ts⟩

/-- `bC1` shifted by one attempt: what a single retry would have seen. -/
def bC1shift : GenBehavior := { bC1 with fetchResult := fun n => bC1.fetchResult (n + 1) }

/-- The pipeline succeeds but Firestore rejects the first (`completed`)
write and accepts the next one. -/
def bC2 : GenBehavior := { bGood with writeOk := fun n => decide (n ≠ 0) }

/-- Every fetch attempt rejects (network error); all writes accepted. -/
def bNet : GenBehavior :=
  ⟨fun _ => .error "fetch failed: network error", stubParse, fun _ => true, ts⟩

/-- A creation body whose `durationDays` is the boolean `true`. -/
def bodyBug : JSON :=
  .obj [("destination", .str "Paris, France"), ("durationDays", .bool true)]

/-- A well-formed creation body. -/
def okBody : JSON :=
  .obj [("destination", .str "Paris, France"), ("durationDays", .num 3)]

/-- An object with no `itinerary` key. -/
def fsNoItin : List (String × JSON) := []

/-- A day object missing `day`. -/
def dayMissingDay : List (String × JSON) :=
  [("theme", .str "Relax"), ("activities", .arr [])]

/-- A top-level object whose first day is missing `day`. -/
def fsDayMissing : List (String × JSON) :=
  [("itinerary", .arr [.obj dayMissingDay])]

/-- An activity object missing `location`. -/
def actMissingLoc : List (String × JSON) :=
  [("time", .str "09:00"), ("description", .str "Walk")]

/-- A day object whose first activity is missing `location`. -/
def dayActMissing : List (String × JSON) :=
  [("day", .num 1), ("theme", .str "Relax"), ("activities", .arr [.obj actMissingLoc])]

/-- A top-level object whose first day's first activity is missing
`location`. -/
def fsActMissing : List (String × JSON) :=
  [("itinerary", .arr [.obj dayActMissing])]

/-- An environment where everything succeeds. -/
def envOk : Env := ⟨"abc123", ts, true, bGood⟩

/-- An environment whose background task sees `bC2` (first terminal write
rejected). -/
def envC2 : Env := ⟨"abc123", ts, true, bC2⟩

/-- An environment whose background task fails (network) with writes
accepted. -/
def envNet : Env := ⟨"abc123", ts, true, bNet⟩

/-- The first fetch attempt rejects (network error), later attempts
succeed; all writes accepted. -/
def bMix : GenBehavior :=
  ⟨fun n => match n with | 0 => .error "boom" | _ => .ok goodResp,
    stubParse, fun _ => true, ts⟩

/-- The JS value of one validated activity as handed to the store adapter
on the `completed` write (the Firestore wire encoding,
`formatFirestoreFields`, maps object keys one-to-one, so key presence in
the stored record equals key presence here). -/
def activityToJSON (a : Activity) : JSON :=
  .obj [("time", .str a.time), ("description", .str a.description),
        ("location", .str a.location)]

/-- The JS value of one validated day plan as handed to the store adapter
(zod emits the schema's keys, in schema order, and nothing else). -/
def dayPlanToJSON (d : DayPlan) : JSON :=
  .obj [("day", .num d.day), ("theme", .str d.theme),
        ("activities", .arr (d.activities.map activityToJSON))]

/-- The keys of a decoded object (empty for non-objects). -/
def objKeys : JSON → List String
  | .obj fs => fs.map Prod.fst
  | _ => []

/-- Thunk failing on attempts 0–2 and succeeding on attempt 3. -/
def fnW : Nat → Except String Nat :=
  fun n => if n < 3 then .error ("e" ++ toString n) else .ok 42

/-- Thunk failing on every attempt, with distinguishable errors. -/
def fnF : Nat → Except String Nat := fun n => .error (toString n)

/-! ## Helper lemmas -/

theorem retryWithBackoff_ok {E A : Type} (fn : Nat → Except E A) (r d a : Nat) (x : A)
    (h : fn a = .ok x) : retryWithBackoff fn r d a = (.ok x, []) := by
  unfold retryWithBackoff
  rw [h]

theorem retryWithBackoff_error_zero {E A : Type} (fn : Nat → Except E A) (d a : Nat) (e : E)
    (h : fn a = .error e) : retryWithBackoff fn 0 d a = (.error e, []) := by
  unfold retryWithBackoff
  rw [h]

theorem retryWithBackoff_error_succ {E A : Type} (fn : Nat → Except E A) (r d a : Nat) (e : E)
    (h : fn a = .error e) :
    retryWithBackoff fn (r + 1) d a =
      ((retryWithBackoff fn r (d * 2) (a + 1)).1,
        d :: (retryWithBackoff fn r (d * 2) (a + 1)).2) := by
  conv_lhs => rw [retryWithBackoff]
  rw [h]

theorem isWs_bt : isWs bt = false := by decide

theorem splitNl_ne_nil (l : List Char) : splitNl l ≠ [] := by
  induction l with
  | nil => simp [splitNl]
  | cons c rest ih =>
    simp only [splitNl]
    split
    · simp
    · split <;> simp

theorem splitNl_append (a b : List Char) :
    splitNl (a ++ nlc :: b) = splitNl a ++ splitNl b := by
  induction a with
  | nil => simp [splitNl]
  | cons c rest ih =>
    by_cases hc : c = nlc
    · subst hc
      simp [splitNl, ih]
    · cases h : splitNl rest with
      | nil => exact absurd h (splitNl_ne_nil rest)
      | cons hd tl =>
        simp only [List.cons_append, splitNl, if_neg hc, List.append_eq, ih, h]

theorem joinNl_splitNl (l : List Char) : joinNl (splitNl l) = l := by
  induction l with
  | nil => simp [splitNl, joinNl]
  | cons c rest ih =>
    by_cases hc : c = nlc
    · subst hc
      simp only [splitNl, if_pos rfl]
      cases h : splitNl rest with
      | nil => exact absurd h (splitNl_ne_nil rest)
      | cons hd tl =>
        rw [h] at ih
        simp [joinNl, ih]
    · simp only [splitNl, if_neg hc]
      cases h : splitNl rest with
      | nil => exact absurd h (splitNl_ne_nil rest)
      | cons hd tl =>
        rw [h] at ih
        cases tl with
        | nil =>
          simp only [joinNl] at ih ⊢
          rw [ih]
        | cons t0 ts =>
          simp only [joinNl] at ih ⊢
          rw [List.cons_append, ih]

theorem trimL_bt_wrap (mid : List Char) :
    trimL (bt :: (mid ++ [bt])) = bt :: (mid ++ [bt]) := by
  unfold trimL
  rw [List.dropWhile_cons, if_neg (by simp [isWs_bt]), show bt :: (mid ++ [bt]) = (bt :: mid) ++ [bt] from rfl,
    List.rdropWhile_concat_neg _ _ _ (by simp [isWs_bt])]

theorem fenced_shape (C : List Char) :
    fenceMark ++ nlc :: C ++ nlc :: fenceMark =
      bt :: ((bt :: bt :: nlc :: C ++ [nlc, bt, bt]) ++ [bt]) := by
  simp [fenceMark]

theorem trimL_fenced (C : List Char) :
    trimL (fenceMark ++ nlc :: C ++ nlc :: fenceMark) =
      fenceMark ++ nlc :: C ++ nlc :: fenceMark := by
  rw [fenced_shape, trimL_bt_wrap]

theorem splitNl_fenceMark : splitNl fenceMark = [fenceMark] := rfl

theorem splitNl_fenced (C : List Char) :
    splitNl (fenceMark ++ nlc :: C ++ nlc :: fenceMark) =
      fenceMark :: (splitNl C ++ [fenceMark]) := by
  rw [splitNl_append, splitNl_append, splitNl_fenceMark]
  simp

/-- The fence-stripping round trip: a trimmed content wrapped in a
3-backtick fence line above and below comes back out unchanged. -/
theorem cleanRawText_fenced (C : List Char) (h : trimL C = C) :
    cleanRawText (fenceMark ++ nlc :: C ++ nlc :: fenceMark) = C := by
  have hpre : fenceMark.isPrefixOf (fenceMark ++ nlc :: C ++ nlc :: fenceMark) = true := by
    rw [List.isPrefixOf_iff_prefix]
    exact ⟨nlc :: C ++ nlc :: fenceMark, rfl⟩
  have hlen : 3 ≤ (fenceMark :: (splitNl C ++ [fenceMark])).length := by
    have := List.length_pos.mpr (splitNl_ne_nil C)
    simp only [List.length_cons, List.length_append, List.length_singleton]
    omega
  simp only [cleanRawText, trimL_fenced, hpre, if_true, splitNl_fenced, if_pos hlen]
  rw [List.tail_cons, List.dropLast_concat, joinNl_splitNl, h]

theorem collect2_error_left {α β : Type} {x : Except (List ZodIssue) α}
    (y : Except (List ZodIssue) β) {e : List ZodIssue} (h : x = .error e) :
    ∃ l, collect2 x y = .error l ∧ ∀ z ∈ e, z ∈ l := by
  subst h
  cases y with
  | ok b => exact ⟨e, rfl, fun z hz => hz⟩
  | error e2 => exact ⟨e ++ e2, rfl, fun z hz => List.mem_append_left _ hz⟩

theorem collect2_error_right {α β : Type} (x : Except (List ZodIssue) α)
    {y : Except (List ZodIssue) β} {e : List ZodIssue} (h : y = .error e) :
    ∃ l, collect2 x y = .error l ∧ ∀ z ∈ e, z ∈ l := by
  subst h
  cases x with
  | ok a => exact ⟨e, rfl, fun z hz => hz⟩
  | error e1 => exact ⟨e1 ++ e, rfl, fun z hz => List.mem_append_right _ hz⟩

/-- If element `i` of an array fails to validate, the array's validation
fails and keeps every issue of that element. -/
theorem parseListAux_error_mem {α : Type} (f : List PathElem → JSON → Except (List ZodIssue) α)
    (p : List PathElem) (n i : Nat) (xs : List JSON) (x : JSON) (e : List ZodIssue)
    (hx : xs[i]? = some x) (hf : f (p ++ [.idx (n + i)]) x = .error e) :
    ∃ es, parseListAux f p n xs = .error es ∧ ∀ z ∈ e, z ∈ es := by
  induction xs generalizing n i with
  | nil => simp at hx
  | cons hd tl ih =>
    cases i with
    | zero =>
      rw [List.getElem?_cons_zero] at hx
      injection hx with hx
      subst hx
      rw [Nat.add_zero] at hf
      obtain ⟨l, hl, hmem⟩ := collect2_error_left (parseListAux f p (n + 1) tl) hf
      exact ⟨l, by simp only [parseListAux, hl], hmem⟩
    | succ i' =>
      rw [List.getElem?_cons_succ] at hx
      have hf' : f (p ++ [.idx (n + 1 + i')]) x = .error e := by
        rw [show n + 1 + i' = n + (i' + 1) by omega]
        exact hf
      obtain ⟨es', hes', hmem'⟩ := ih (n + 1) i' hx hf'
      obtain ⟨l, hl, hmem2⟩ := collect2_error_right (f (p ++ [.idx n]) hd) hes'
      exact ⟨l, by simp only [parseListAux, hl], fun z hz => hmem2 z (hmem' z hz)⟩

/-- An activity object missing one of its three required string fields
fails with an issue at that field. -/
theorem parseActivity_missing (p : List PathElem) (afs : List (String × JSON)) (k : String)
    (hk : k = "time" ∨ k = "description" ∨ k = "location")
    (h : lookupField afs k = none) :
    ∃ es, parseActivity p (.obj afs) = .error es ∧
      (⟨p ++ [.key k], "Required"⟩ : ZodIssue) ∈ es := by
  rcases hk with hk | hk | hk <;> subst hk
  · have hr : reqString p "time" afs = .error [⟨p ++ [.key "time"], "Required"⟩] := by
      simp [reqString, h]
    obtain ⟨l, hl, hm⟩ :=
      collect2_error_left (collect2 (reqString p "description" afs) (reqString p "location" afs)) hr
    exact ⟨l, by simp only [parseActivity, hl], hm _ (by simp)⟩
  · have hr : reqString p "description" afs = .error [⟨p ++ [.key "description"], "Required"⟩] := by
      simp [reqString, h]
    obtain ⟨l1, hl1, hm1⟩ := collect2_error_left (reqString p "location" afs) hr
    obtain ⟨l, hl, hm⟩ := collect2_error_right (reqString p "time" afs) hl1
    exact ⟨l, by simp only [parseActivity, hl], hm _ (hm1 _ (by simp))⟩
  · have hr : reqString p "location" afs = .error [⟨p ++ [.key "location"], "Required"⟩] := by
      simp [reqString, h]
    obtain ⟨l1, hl1, hm1⟩ := collect2_error_right (reqString p "description" afs) hr
    obtain ⟨l, hl, hm⟩ := collect2_error_right (reqString p "time" afs) hl1
    exact ⟨l, by simp only [parseActivity, hl], hm _ (hm1 _ (by simp))⟩

/-- A day object missing one of `day`, `theme`, `activities` fails with an
issue at that field. -/
theorem parseDayPlan_missing (p : List PathElem) (dfs : List (String × JSON)) (k : String)
    (hk : k = "day" ∨ k = "theme" ∨ k = "activities")
    (h : lookupField dfs k = none) :
    ∃ es, parseDayPlan p (.obj dfs) = .error es ∧
      (⟨p ++ [.key k], "Required"⟩ : ZodIssue) ∈ es := by
  rcases hk with hk | hk | hk <;> subst hk
  · have hr : reqInt p "day" dfs = .error [⟨p ++ [.key "day"], "Required"⟩] := by
      simp [reqInt, h]
    obtain ⟨l, hl, hm⟩ :=
      collect2_error_left (collect2 (reqString p "theme" dfs) (reqActivities p dfs)) hr
    exact ⟨l, by simp only [parseDayPlan, hl], hm _ (by simp)⟩
  · have hr : reqString p "theme" dfs = .error [⟨p ++ [.key "theme"], "Required"⟩] := by
      simp [reqString, h]
    obtain ⟨l1, hl1, hm1⟩ := collect2_error_left (reqActivities p dfs) hr
    obtain ⟨l, hl, hm⟩ := collect2_error_right (reqInt p "day" dfs) hl1
    exact ⟨l, by simp only [parseDayPlan, hl], hm _ (hm1 _ (by simp))⟩
  · have hr : reqActivities p dfs = .error [⟨p ++ [.key "activities"], "Required"⟩] := by
      simp [reqActivities, h]
    obtain ⟨l1, hl1, hm1⟩ := collect2_error_right (reqString p "theme" dfs) hr
    obtain ⟨l, hl, hm⟩ := collect2_error_right (reqInt p "day" dfs) hl1
    exact ⟨l, by simp only [parseDayPlan, hl], hm _ (hm1 _ (by simp))⟩

/-- A day object whose `activities` array has a failing element fails,
keeping that element's issues. -/
theorem parseDayPlan_activities_elem (p : List PathElem) (dfs : List (String × JSON))
    (as : List JSON) (j : Nat) (x : JSON) (e : List ZodIssue)
    (hla : lookupField dfs "activities" = some (.arr as)) (hj : as[j]? = some x)
    (hf : parseActivity (p ++ [.key "activities"] ++ [.idx j]) x = .error e) :
    ∃ es, parseDayPlan p (.obj dfs) = .error es ∧ ∀ z ∈ e, z ∈ es := by
  have hf0 : parseActivity ((p ++ [.key "activities"]) ++ [.idx (0 + j)]) x = .error e := by
    rw [Nat.zero_add]
    exact hf
  obtain ⟨es1, h1, hm1⟩ :=
    parseListAux_error_mem parseActivity (p ++ [.key "activities"]) 0 j as x e hj hf0
  have hr : reqActivities p dfs = .error es1 := by
    simp only [reqActivities, hla, h1]
  obtain ⟨l1, hl1, hm2⟩ := collect2_error_right (reqString p "theme" dfs) hr
  obtain ⟨l, hl, hm⟩ := collect2_error_right (reqInt p "day" dfs) hl1
  exact ⟨l, by simp only [parseDayPlan, hl], fun z hz => hm _ (hm2 _ (hm1 _ hz))⟩

/-! ## Claim theorems -/

/-- C5: with the default policy (3 retries, 500ms initial delay), a
wrapped function failing on attempts 0–2 and succeeding on attempt 3
yields the success after exactly the delays 500, 1000, 2000 (each twice
the previous); one failing on all 4 attempts yields the same three delays
and then propagates the last error, with no partial result. -/
theorem c5_backoff_timing {E A : Type} (fn : Nat → Except E A) :
    (∀ (x : A) (e0 e1 e2 : E), fn 0 = .error e0 → fn 1 = .error e1 → fn 2 = .error e2 →
      fn 3 = .ok x → retryWithBackoff fn 3 500 0 = (.ok x, [500, 1000, 2000])) ∧
    (∀ e0 e1 e2 e3 : E, fn 0 = .error e0 → fn 1 = .error e1 → fn 2 = .error e2 →
      fn 3 = .error e3 → retryWithBackoff fn 3 500 0 = (.error e3, [500, 1000, 2000])) := by
  constructor
  · intro x e0 e1 e2 h0 h1 h2 h3
    rw [show (3 : Nat) = 2 + 1 from rfl, retryWithBackoff_error_succ fn 2 500 0 e0 h0,
      show (2 : Nat) = 1 + 1 from rfl, retryWithBackoff_error_succ fn 1 (500 * 2) (0 + 1) e1 h1,
      show (1 : Nat) = 0 + 1 from rfl, retryWithBackoff_error_succ fn 0 (500 * 2 * 2) (0 + 1 + 1) e2 h2,
      retryWithBackoff_ok fn 0 (500 * 2 * 2 * 2) (0 + 1 + 1 + 1) x h3]
  · intro e0 e1 e2 e3 h0 h1 h2 h3
    rw [show (3 : Nat) = 2 + 1 from rfl, retryWithBackoff_error_succ fn 2 500 0 e0 h0,
      show (2 : Nat) = 1 + 1 from rfl, retryWithBackoff_error_succ fn 1 (500 * 2) (0 + 1) e1 h1,
      show (1 : Nat) = 0 + 1 from rfl, retryWithBackoff_error_succ fn 0 (500 * 2 * 2) (0 + 1 + 1) e2 h2,
      retryWithBackoff_error_zero fn (500 * 2 * 2 * 2) (0 + 1 + 1 + 1) e3 h3]

/-- Witness for C5 at concrete thunks. -/
theorem c5_backoff_timing_witness :
    retryWithBackoff fnW 3 500 0 = (.ok 42, [500, 1000, 2000]) ∧
    retryWithBackoff fnF 3 500 0 = (.error "3", [500, 1000, 2000]) :=
  ⟨(c5_backoff_timing fnW).1 42 "e0" "e1" "e2" rfl rfl rfl rfl,
    (c5_backoff_timing fnF).2 "0" "1" "2" "3" rfl rfl rfl rfl⟩

/-- C1 counterexample: the first fetch attempt settles with a non-OK
(HTTP 500) response while a single retry would have returned an OK
response with a valid body, yet the code performs no retry at all (no
backoff delay is slept), propagates `Gemini failed: 500` out of the fetch
stage, and marks the job failed — a non-success response does not trigger
the retry-with-backoff policy, contradicting the claim. -/
theorem c1_counterexample :
    bC1.fetchResult 0 = .ok respBad ∧ respBad.ok = false ∧
    bC1.fetchResult 1 = .ok goodResp ∧ goodResp.ok = true ∧
    pipelineResult bC1shift = .ok goodData ∧
    (retryWithBackoff bC1.fetchResult 3 500 0).2 = [] ∧
    fetchStage bC1 = .error "Gemini failed: 500" ∧
    (runGeneration bC1).1 = [⟨failedUpdate "Gemini failed: 500" ts, true⟩] :=
  ⟨rfl, rfl, rfl, rfl, rfl, rfl, rfl, rfl⟩

/-- C1 amended: a network error or thrown exception from the fetch call is
retried (with backoff) up to the bound, but a non-OK HTTP response is not:
the retry wrapper returns the first settled response whatever its status,
and the `ok` check outside the wrapper then propagates the error at once. -/
theorem c1_amended_retry_scope :
    (∀ (b : GenBehavior) (resp : FetchResponse), b.fetchResult 0 = .ok resp →
      retryWithBackoff b.fetchResult 3 500 0 = (.ok resp, []) ∧
      (resp.ok = false →
        fetchStage b = .error ("Gemini failed: " ++ toString resp.status))) ∧
    (∀ (b : GenBehavior) (e : String) (resp : FetchResponse),
      b.fetchResult 0 = .error e → b.fetchResult 1 = .ok resp →
      retryWithBackoff b.fetchResult 3 500 0 = (.ok resp, [500])) := by
  constructor
  · intro b resp h
    have h1 := retryWithBackoff_ok b.fetchResult 3 500 0 resp h
    refine ⟨h1, fun hok => ?_⟩
    simp [fetchStage, h1, hok]
  · intro b e resp h0 h1
    rw [show (3 : Nat) = 2 + 1 from rfl, retryWithBackoff_error_succ b.fetchResult 2 500 0 e h0,
      retryWithBackoff_ok b.fetchResult 2 (500 * 2) (0 + 1) resp h1]

/-- Witness for the amended C1 at concrete behaviours. -/
theorem c1_amended_retry_scope_witness :
    retryWithBackoff bC1.fetchResult 3 500 0 = (.ok respBad, []) ∧
    fetchStage bC1 = .error ("Gemini failed: " ++ toString respBad.status) ∧
    retryWithBackoff bMix.fetchResult 3 500 0 = (.ok goodResp, [500]) :=
  ⟨(c1_amended_retry_scope.1 bC1 respBad rfl).1,
    (c1_amended_retry_scope.1 bC1 respBad rfl).2 rfl,
    c1_amended_retry_scope.2 bMix "boom" goodResp rfl rfl⟩

/-- C2 counterexample: when the pipeline succeeds but Firestore rejects
the `completed` write, the catch block issues a second terminal write
(`failed`) against the same job — an execution path with two terminal
writes issued, contradicting the claim as stated. -/
theorem c2_counterexample_double_terminal :
    (runGeneration bC2).1 =
      [⟨completedUpdate goodData ts, false⟩, ⟨failedUpdate storeErrMsg ts, true⟩] ∧
    countIssuedTerminal (runGeneration bC2).1 = 2 :=
  ⟨rfl, rfl⟩

theorem isTerminal_completedUpdate (d : ItineraryData) (t : String) :
    isTerminal (completedUpdate d t) = true := rfl

theorem isTerminal_failedUpdate (m t : String) :
    isTerminal (failedUpdate m t) = true := rfl

/-- C2 amended: at most one terminal write is ever accepted by the store,
and whenever the store accepts every write, the background task issues
exactly one (terminal, accepted) write after the initial processing write;
two terminal writes are only issued on the path where the store rejected
the `completed` write, and even there at most one takes effect. -/
theorem c2_amended_terminal_writes (b : GenBehavior) :
    countAppliedTerminal (runGeneration b).1 ≤ 1 ∧
    ((∀ n, b.writeOk n = true) →
      ∃ w : WriteRec, (runGeneration b).1 = [w] ∧ isTerminal w.data = true ∧
        w.applied = true) := by
  constructor
  · cases hp : pipelineResult b with
    | ok d =>
      cases h0 : b.writeOk 0 with
      | true =>
        simp [runGeneration, hp, h0, countAppliedTerminal, List.filter,
          isTerminal_completedUpdate, isTerminal_failedUpdate]
      | false =>
        cases h1 : b.writeOk 1 <;>
          simp [runGeneration, hp, h0, h1, countAppliedTerminal, List.filter,
            isTerminal_completedUpdate, isTerminal_failedUpdate]
    | error m =>
      cases h0 : b.writeOk 0 <;>
        simp [runGeneration, hp, h0, countAppliedTerminal, List.filter,
          isTerminal_completedUpdate, isTerminal_failedUpdate]
  · intro hw
    cases hp : pipelineResult b with
    | ok d =>
      exact ⟨⟨completedUpdate d b.now, true⟩, by simp [runGeneration, hp, hw 0], rfl, rfl⟩
    | error m =>
      exact ⟨⟨failedUpdate m b.now, true⟩, by simp [runGeneration, hp, hw 0], rfl, rfl⟩

/-- Witness for the amended C2 at a concrete behaviour. -/
theorem c2_amended_terminal_writes_witness :
    countAppliedTerminal (runGeneration bGood).1 ≤ 1 ∧
    ∃ w : WriteRec, (runGeneration bGood).1 = [w] ∧ isTerminal w.data = true ∧
      w.applied = true :=
  ⟨(c2_amended_terminal_writes bGood).1,
    (c2_amended_terminal_writes bGood).2 fun _ => rfl⟩

/-- C3 (code bug): the creation request `{destination: "Paris, France",
durationDays: true}` — whose durationDays is a boolean, not a positive
number — is accepted by the gateway: it answers 202, issues the initial
`processing` store write, and dispatches generation, because the source
checks only `!durationDays || durationDays <= 0` (the boolean coerces to
1) and never checks `typeof durationDays`, contradicting its own error
message, which demands a positive number. -/
theorem c3_code_behavior_on_boolean_duration :
    (handlePost (.parsed bodyBug) envOk).status = some 202 ∧
    (handlePost (.parsed bodyBug) envOk).writes =
      [⟨initUpdate "Paris, France" (.bool true) ts, true⟩] ∧
    (handlePost (.parsed bodyBug) envOk).dispatched = true ∧
    getProp bodyBug "durationDays" = some (.bool true) ∧
    isNumberVal (getProp bodyBug "durationDays") = false :=
  ⟨rfl, rfl, rfl, rfl, rfl⟩

/-- C4: whatever the failure in the generation pipeline (network failure
after retries, odd response shape, JSON parse failure, or schema
validation failure — `pipelineResult` ranges over all of them), the
orchestrator catches it and, provided the store accepts writes, issues
exactly one terminal write with status `failed`, `error` set to the caught
message, and `completedAt` set, and the background task completes without
an uncaught exception. -/
theorem c4_failures_caught_single_failed_write (b : GenBehavior) (msg : String)
    (hp : pipelineResult b = .error msg) (hw : ∀ n, b.writeOk n = true) :
    runGeneration b = ([⟨failedUpdate msg b.now, true⟩], .ok ()) ∧
    (failedUpdate msg b.now).status = some .failed ∧
    (failedUpdate msg b.now).error = some (some msg) ∧
    (failedUpdate msg b.now).completedAt = some (some b.now) := by
  refine ⟨?_, rfl, rfl, rfl⟩
  simp [runGeneration, hp, hw 0]

/-- Witness for C4: a behaviour whose every fetch attempt rejects. -/
theorem c4_failures_caught_single_failed_write_witness :
    runGeneration bNet = ([⟨failedUpdate "fetch failed: network error" ts, true⟩], .ok ()) ∧
    (failedUpdate "fetch failed: network error" ts).status = some .failed ∧
    (failedUpdate "fetch failed: network error" ts).error =
      some (some "fetch failed: network error") ∧
    (failedUpdate "fetch failed: network error" ts).completedAt = some (some ts) :=
  c4_failures_caught_single_failed_write bNet "fetch failed: network error" rfl fun _ => rfl

/-- C7: wrapping trimmed content between a 3-backtick fence line above and
below changes nothing observable: the post-processing returns exactly the
content, so any parse function — in particular the host JSON parse —
yields the same value as on the unfenced content. -/
theorem c7_fence_stripping_parse_equiv (C : List Char)
    (parse : List Char → Except String JSON) (h : trimL C = C) :
    cleanRawText (fenceMark ++ nlc :: C ++ nlc :: fenceMark) = C ∧
    parse (cleanRawText (fenceMark ++ nlc :: C ++ nlc :: fenceMark)) = parse C := by
  refine ⟨cleanRawText_fenced C h, ?_⟩
  rw [cleanRawText_fenced C h]

/-- Witness for C7 at a concrete content and parse function. -/
theorem c7_fence_stripping_parse_equiv_witness :
    cleanRawText (fenceMark ++ nlc :: goodText.toList ++ nlc :: fenceMark) = goodText.toList ∧
    stubParse (cleanRawText (fenceMark ++ nlc :: goodText.toList ++ nlc :: fenceMark)) =
      stubParse goodText.toList :=
  c7_fence_stripping_parse_equiv goodText.toList stubParse rfl

/-- C9: fence stripping is triggered exactly when the trimmed raw text
starts with three backticks and has at least 3 lines; when triggered, the
first and last lines are removed unconditionally (the last even when it is
not a closing fence — the concrete conjunct shows the final content line
`B` being lost); with fewer than 3 lines the trimmed text is parsed
as-is. -/
theorem c9_fence_stripping_trigger (s : List Char) :
    (fenceMark.isPrefixOf (trimL s) = false → cleanRawText s = trimL s) ∧
    (fenceMark.isPrefixOf (trimL s) = true → (splitNl (trimL s)).length < 3 →
      cleanRawText s = trimL s) ∧
    (fenceMark.isPrefixOf (trimL s) = true → 3 ≤ (splitNl (trimL s)).length →
      cleanRawText s = trimL (joinNl ((splitNl (trimL s)).tail.dropLast))) ∧
    cleanRawText ("```\nA\nB".toList) = ['A'] := by
  refine ⟨fun h => ?_, fun h1 h2 => ?_, fun h1 h2 => ?_, rfl⟩
  · simp [cleanRawText, h]
  · simp [cleanRawText, h1, Nat.not_le.mpr h2]
  · simp [cleanRawText, h1, h2]

/-- Witness for C9 at concrete raw texts: no fence; an unterminated
one-line fence; a fence block whose last line is ordinary content. -/
theorem c9_fence_stripping_trigger_witness :
    cleanRawText ("hello".toList) = trimL ("hello".toList) ∧
    cleanRawText ("```x".toList) = trimL ("```x".toList) ∧
    cleanRawText ("```\nA\nB".toList) =
      trimL (joinNl ((splitNl (trimL ("```\nA\nB".toList))).tail.dropLast)) :=
  ⟨(c9_fence_stripping_trigger ("hello".toList)).1 rfl,
    (c9_fence_stripping_trigger ("```x".toList)).2.1 rfl (by decide),
    (c9_fence_stripping_trigger ("```\nA\nB".toList)).2.2.1 rfl (by decide)⟩

/-- C10: whenever the pipeline completes, the itinerary carried by the
`completed` write (the head of the task's write trace) is exactly the
validator's parsed output for the decoded value, and the JS value handed
to the store for each day object has exactly the keys `day`, `theme`,
`activities` — and each activity exactly `time`, `description`,
`location` — so any other key of the model output is dropped and never
appears in the stored record. -/
theorem c10_persisted_itinerary_stripped (b : GenBehavior) (d : ItineraryData)
    (hp : pipelineResult b = .ok d) :
    (∃ v, decodedValue b = .ok v ∧ itinerarySchema.safeParse v = .ok d) ∧
    (runGeneration b).1.head? = some ⟨completedUpdate d b.now, b.writeOk 0⟩ ∧
    (completedUpdate d b.now).itinerary = some (some d.itinerary) ∧
    (∀ day ∈ d.itinerary, objKeys (dayPlanToJSON day) = ["day", "theme", "activities"] ∧
      ∀ a ∈ day.activities, objKeys (activityToJSON a) = ["time", "description", "location"]) := by
  refine ⟨?_, ?_, rfl, fun day _ => ⟨rfl, fun a _ => rfl⟩⟩
  · revert hp
    unfold pipelineResult
    cases hd : decodedValue b with
    | error e => simp
    | ok v =>
      cases hs : itinerarySchema.safeParse v with
      | error es => simp [hs]
      | ok d' =>
        simp only [hs]
        intro hp
        injection hp with hp
        subst hp
        exact ⟨v, rfl, hs⟩
  · cases h0 : b.writeOk 0 <;> simp [runGeneration, hp, h0]

/-- Witness for C10 at the all-good behaviour. -/
theorem c10_persisted_itinerary_stripped_witness :
    (∃ v, decodedValue bGood = .ok v ∧ itinerarySchema.safeParse v = .ok goodData) ∧
    (runGeneration bGood).1.head? = some ⟨completedUpdate goodData bGood.now, bGood.writeOk 0⟩ ∧
    (completedUpdate goodData bGood.now).itinerary = some (some goodData.itinerary) ∧
    (∀ day ∈ goodData.itinerary,
      objKeys (dayPlanToJSON day) = ["day", "theme", "activities"] ∧
      ∀ a ∈ day.activities, objKeys (activityToJSON a) = ["time", "description", "location"]) :=
  c10_persisted_itinerary_stripped bGood goodData rfl

/-- C8: a decoded object missing the top-level `itinerary` key is
rejected with an issue at `itinerary`; an object whose itinerary array has
an element (an object) missing any of `day`, `theme`, `activities` is
rejected with an issue at that element's field; and one whose activity
object is missing any of `time`, `description`, `location` is rejected
with an issue at that activity's field. -/
theorem c8_schema_rejection_reports_field :
    (∀ fs : List (String × JSON), lookupField fs "itinerary" = none →
      itinerarySchema.safeParse (.obj fs) = .error [⟨[.key "itinerary"], "Required"⟩]) ∧
    (∀ (fs : List (String × JSON)) (xs : List JSON) (i : Nat)
        (dfs : List (String × JSON)) (k : String),
      lookupField fs "itinerary" = some (.arr xs) → xs[i]? = some (.obj dfs) →
      (k = "day" ∨ k = "theme" ∨ k = "activities") → lookupField dfs k = none →
      ∃ es, itinerarySchema.safeParse (.obj fs) = .error es ∧
        (⟨[.key "itinerary", .idx i, .key k], "Required"⟩ : ZodIssue) ∈ es) ∧
    (∀ (fs : List (String × JSON)) (xs : List JSON) (i : Nat)
        (dfs : List (String × JSON)) (as : List JSON) (j : Nat)
        (afs : List (String × JSON)) (k : String),
      lookupField fs "itinerary" = some (.arr xs) → xs[i]? = some (.obj dfs) →
      lookupField dfs "activities" = some (.arr as) → as[j]? = some (.obj afs) →
      (k = "time" ∨ k = "description" ∨ k = "location") → lookupField afs k = none →
      ∃ es, itinerarySchema.safeParse (.obj fs) = .error es ∧
        (⟨[.key "itinerary", .idx i, .key "activities", .idx j, .key k],
          "Required"⟩ : ZodIssue) ∈ es) := by
  refine ⟨fun fs h => by simp [itinerarySchema.safeParse, h],
    fun fs xs i dfs k hlk hxi hk hmiss => ?_,
    fun fs xs i dfs as j afs k hlk hxi hla haj hk hmiss => ?_⟩
  · obtain ⟨es1, h1, hm1⟩ := parseDayPlan_missing ([.key "itinerary"] ++ [.idx i]) dfs k hk hmiss
    have hf : parseDayPlan ([.key "itinerary"] ++ [.idx (0 + i)]) (.obj dfs) = .error es1 := by
      rw [Nat.zero_add]
      exact h1
    obtain ⟨es2, h2, hm2⟩ :=
      parseListAux_error_mem parseDayPlan [.key "itinerary"] 0 i xs (.obj dfs) es1 hxi hf
    refine ⟨es2, by simp [itinerarySchema.safeParse, hlk, h2], ?_⟩
    have := hm2 _ hm1
    simpa using this
  · obtain ⟨es0, h0, hm0⟩ := parseActivity_missing
      (([.key "itinerary"] ++ [.idx i]) ++ [.key "activities"] ++ [.idx j]) afs k hk hmiss
    obtain ⟨es1, h1, hm1⟩ := parseDayPlan_activities_elem
      ([.key "itinerary"] ++ [.idx i]) dfs as j (.obj afs) es0 hla haj h0
    have hf : parseDayPlan ([.key "itinerary"] ++ [.idx (0 + i)]) (.obj dfs) = .error es1 := by
      rw [Nat.zero_add]
      exact h1
    obtain ⟨es2, h2, hm2⟩ :=
      parseListAux_error_mem parseDayPlan [.key "itinerary"] 0 i xs (.obj dfs) es1 hxi hf
    refine ⟨es2, by simp [itinerarySchema.safeParse, hlk, h2], ?_⟩
    have := hm2 _ (hm1 _ (hm0))
    simpa using this

/-- Witness for C8 at three concrete rejected values. -/
theorem c8_schema_rejection_reports_field_witness :
    itinerarySchema.safeParse (.obj fsNoItin) = .error [⟨[.key "itinerary"], "Required"⟩] ∧
    (∃ es, itinerarySchema.safeParse (.obj fsDayMissing) = .error es ∧
      (⟨[.key "itinerary", .idx 0, .key "day"], "Required"⟩ : ZodIssue) ∈ es) ∧
    (∃ es, itinerarySchema.safeParse (.obj fsActMissing) = .error es ∧
      (⟨[.key "itinerary", .idx 0, .key "activities", .idx 0, .key "location"],
        "Required"⟩ : ZodIssue) ∈ es) :=
  ⟨c8_schema_rejection_reports_field.1 fsNoItin rfl,
    c8_schema_rejection_reports_field.2.1 fsDayMissing [.obj dayMissingDay] 0 dayMissingDay
      "day" rfl rfl (Or.inl rfl) rfl,
    c8_schema_rejection_reports_field.2.2 fsActMissing [.obj dayActMissing] 0 dayActMissing
      [.obj actMissingLoc] 0 actMissingLoc "location" rfl rfl rfl rfl
      (Or.inr (Or.inr rfl)) rfl⟩

/-- C6: for every request and environment, the final job document
satisfies mutual exclusivity: when its status is `completed` the itinerary
is set and the error is null, when `failed` the error is set and the
itinerary is null, and the two are never both set. -/
theorem c6_mutual_exclusivity (rb : ReqBody) (env : Env) :
    ((finalRecord rb env).status = some .completed →
      (finalRecord rb env).itinerary.isSome = true ∧ (finalRecord rb env).error = none) ∧
    ((finalRecord rb env).status = some .failed →
      (finalRecord rb env).error.isSome = true ∧ (finalRecord rb env).itinerary = none) ∧
    ¬((finalRecord rb env).itinerary.isSome = true ∧
      (finalRecord rb env).error.isSome = true) := by
  unfold finalRecord
  cases rb with
  | malformed => simp [handlePost, applyWrites]
  | parsed body =>
    cases body with
    | null => simp [handlePost, applyWrites]
    | bool bb => simp [handlePost, applyWrites, getProp, undefTruthy]
    | num q => simp [handlePost, applyWrites, getProp, undefTruthy]
    | str s => simp [handlePost, applyWrites, getProp, undefTruthy]
    | arr xs => simp [handlePost, applyWrites, getProp, undefTruthy]
    | obj fs =>
      simp only [handlePost]
      split
      · simp [applyWrites]
      · cases hiw : env.initWriteOk with
        | false => simp [applyWrites]
        | true =>
          cases hp : pipelineResult env.gen with
          | ok d =>
            cases h0 : env.gen.writeOk 0 with
            | true =>
              simp [runGeneration, hp, h0, applyWrites, applyUpdate, initUpdate,
                completedUpdate]
            | false =>
              cases h1 : env.gen.writeOk 1 <;>
                simp [runGeneration, hp, h0, h1, applyWrites, applyUpdate, initUpdate,
                  completedUpdate, failedUpdate]
          | error m =>
            cases h0 : env.gen.writeOk 0 <;>
              simp [runGeneration, hp, h0, applyWrites, applyUpdate, initUpdate,
                failedUpdate]

/-- Witness for C6 at a concrete successful run. -/
theorem c6_mutual_exclusivity_witness :
    (finalRecord (.parsed okBody) envOk).status = some .completed ∧
    (finalRecord (.parsed okBody) envOk).itinerary.isSome = true ∧
    (finalRecord (.parsed okBody) envOk).error = none :=
  ⟨rfl, ((c6_mutual_exclusivity (.parsed okBody) envOk).1 rfl).1,
    ((c6_mutual_exclusivity (.parsed okBody) envOk).1 rfl).2⟩

end ServerlessItinerary
